import Mathlib

set_option maxHeartbeats 1600000

/-!
Verification of the AI-ResumeBuilder scoring engine.

The scoring core is the Python class `ATSScorer` (backend/services/ats_scorer.py,
reproduced in ATS_SCORING_LOGIC.md) and the deployed Netlify function
netlify/functions/score-file.js.  Both are shallowly embedded below: resume
text is a `List Char` (one entry per code point), Python / JS numbers are `ℚ`
or `Nat`, feedback strings are Lean `String`s, and fallible extraction returns
`Except`.  Character class tests (`isupper`, `\d`, whitespace) are modelled at
ASCII granularity, which is the alphabet every scorer vocabulary and every
concrete input in this development uses.
-/

namespace ATS

/-- Python `str.lower` / JS `toLowerCase`, code point by code point. -/
def lower (l : List Char) : List Char := l.map Char.toLower

/-- Python `pat in l` / JS `l.includes(pat)`: substring containment. -/
def containsL (l pat : List Char) : Bool := decide (pat <:+: l)

/-- JS `String.prototype.startsWith`. -/
def startsWithL (l pat : List Char) : Bool := decide (pat <+: l)

/-- Split at every character satisfying `p`, keeping empty pieces, as Python
`str.split(sep)` and JS `String.prototype.split` do for a one-character
separator. -/
def splitOnPred (p : Char → Bool) : List Char → List (List Char)
  | [] => [[]]
  | c :: rest =>
    match splitOnPred p rest with
    | [] => [[]]
    | h :: t => if p c then [] :: h :: t else (c :: h) :: t

/-- Python `text.split(c)` for a single-character separator. -/
def splitOnChar (c : Char) (l : List Char) : List (List Char) :=
  splitOnPred (fun x => x = c) l

/-- Python `text.split()` with no argument: split on whitespace runs and drop
the empty pieces. -/
def splitWs (l : List Char) : List (List Char) :=
  (splitOnPred (fun c => c.isWhitespace) l).filter (fun w => !w.isEmpty)

/-- Python `str.count(pat)` for a non-empty pattern: non-overlapping
occurrences counted scanning left to right.  The `Nat` argument is fuel,
always instantiated with the length of the scanned list, which bounds the
number of scanning steps. -/
def countOccAux (pat : List Char) : Nat → List Char → Nat
  | 0, _ => 0
  | _ + 1, [] => 0
  | fuel + 1, c :: rest =>
    if pat ≠ [] ∧ pat <+: (c :: rest) then
      1 + countOccAux pat fuel ((c :: rest).drop pat.length)
    else countOccAux pat fuel rest

/-- Python `text.count(pat)` (used only with non-empty patterns). -/
def countOcc (pat l : List Char) : Nat := countOccAux pat l.length l

/-- Python built-in `max` on two numbers. -/
def pymax (a b : ℚ) : ℚ := if a < b then b else a

/-- Round to the nearest integer, ties to even, as Python `round` does. -/
def roundHalfEvenInt (q : ℚ) : ℤ :=
  if q - ⌊q⌋ < 1 / 2 then ⌊q⌋
  else if (1 : ℚ) / 2 < q - ⌊q⌋ then ⌊q⌋ + 1
  else if ⌊q⌋ % 2 = 0 then ⌊q⌋ else ⌊q⌋ + 1

/-- Python `round(q, 1)`, modelled exactly over `ℚ`. -/
def pyRound1 (q : ℚ) : ℚ := (roundHalfEvenInt (q * 10) : ℚ) / 10

/-- Python `str.isupper` at ASCII granularity: at least one cased character
and no lowercase character. -/
def pyIsUpper (l : List Char) : Bool :=
  l.any (fun c => c.isAlpha) && l.all (fun c => !c.isAlpha || c.isUpper)

/-- A single straight quote, kept out of string literals. -/
def sq : String := String.singleton (Char.ofNat 39)

/-- ATSScorer.STRONG_VERBS (a Python set; order is irrelevant, only
membership tests are performed on it). -/
def STRONG_VERBS : List (List Char) :=
  (["led", "designed", "developed", "implemented", "created", "built",
    "engineered", "architected", "achieved", "delivered", "launched",
    "spearheaded", "transformed", "pioneered", "revolutionized",
    "optimized", "accelerated", "improved", "enhanced", "maximized",
    "initiated", "established", "founded", "generated", "increased",
    "reduced", "decreased", "managed", "directed", "oversaw"]).map String.data

/-- ATSScorer.WEAK_VERBS. -/
def WEAK_VERBS : List (List Char) :=
  (["worked", "helped", "did", "made", "responsible", "involved",
    "participated", "assisted", "contributed", "collaborated"]).map String.data

/-- ATSScorer.ATS_BREAKING_CHARS. -/
def ATS_BREAKING_CHARS : List Char := ['→', '•', '◆', '★', '✓', '©', '™', '®']

/-- ATSScorer.TECHNICAL_KEYWORDS. -/
def TECHNICAL_KEYWORDS : List (List Char) :=
  (["python", "java", "javascript", "c++", "sql", "html", "css",
    "react", "angular", "vue", "fastapi", "django", "flask",
    "aws", "gcp", "azure", "docker", "kubernetes", "jenkins",
    "git", "github", "gitlab", "rest", "api", "microservices",
    "agile", "scrum", "jira", "linux", "windows", "mac"]).map String.data

/-- Stop-word set of `ATSScorer._extract_keywords`. -/
def stopwords : List (List Char) :=
  (["the", "a", "an", "and", "or", "in", "at", "to", "for", "of",
    "is", "was", "are"]).map String.data

/-- ATSScorer._extract_keywords: whitespace tokens of length > 3 that are not
stop words. -/
def extract_keywords (text : List Char) : List (List Char) :=
  (splitWs text).filter (fun w => decide (3 < w.length) && !(decide (w ∈ stopwords)))

/-- First alternative of the metrics regex in `_score_impact`:
`\d+[\%\+\-]?` with a greedy digit run (ASCII digits). Returns the number of
characters consumed on success. -/
def altNum (l : List Char) : Option Nat :=
  let d := (l.takeWhile Char.isDigit).length
  if d = 0 then none
  else
    match l.drop d with
    | c :: _ => if c = '%' ∨ c = '+' ∨ c = '-' then some (d + 1) else some d
    | [] => some d

/-- Second alternative of the metrics regex: `\$[\d\.,]+`. -/
def altMoney (l : List Char) : Option Nat :=
  match l with
  | c :: rest =>
    if c = '$' then
      let k := (rest.takeWhile (fun x => x.isDigit || x = '.' || x = ',')).length
      if k = 0 then none else some (1 + k)
    else none
  | [] => none

/-- Third alternative of the metrics regex: `[\d\.]+ [A-Za-z]+`. -/
def altScaled (l : List Char) : Option Nat :=
  let k := (l.takeWhile (fun x => x.isDigit || x = '.')).length
  if k = 0 then none
  else
    match l.drop k with
    | c :: rest =>
      if c = ' ' then
        let m := (rest.takeWhile Char.isAlpha).length
        if m = 0 then none else some (k + 1 + m)
      else none
    | [] => none

/-- One attempted regex match at the current position: the three alternatives
are tried in the order they appear in the pattern, each with maximal-munch
character classes (none of them needs backtracking: every character class in
the pattern is disjoint from the character that must follow it). -/
def tryMatch (l : List Char) : Option Nat :=
  match altNum l with
  | some n => some n
  | none =>
    match altMoney l with
    | some n => some n
    | none => altScaled l

/-- Scanning loop of `re.findall`: leftmost matches, continuing after each
match (every successful match here consumes at least one character).  The
`Nat` argument is fuel, instantiated with the length of the text. -/
def metricsAux : Nat → List Char → Nat
  | 0, _ => 0
  | _ + 1, [] => 0
  | fuel + 1, c :: rest =>
    match tryMatch (c :: rest) with
    | some n => 1 + metricsAux fuel ((c :: rest).drop n)
    | none => metricsAux fuel rest

/-- Number of matches of `re.findall(r'\d+[\%\+\-]?|\$[\d\.,]+|[\d\.]+ [A-Za-z]+', text)`. -/
def metricsCount (l : List Char) : Nat := metricsAux l.length l

/-- Consume exactly `n` leading ASCII digits. -/
def phoneDigits (n : Nat) (l : List Char) : Option (List Char) :=
  if n ≤ l.length ∧ (l.take n).all Char.isDigit then some (l.drop n) else none

/-- Consume an optional separator, `[-\.]?`. -/
def phoneSep (l : List Char) : List Char :=
  match l with
  | c :: rest => if c = '-' ∨ c = '.' then rest else c :: rest
  | [] => []

/-- Match of `\d{3}[-\.]?\d{3}[-\.]?\d{4}` anchored at the head of `l` (the
optional separators are deterministic: a separator character can never satisfy
the following `\d`). -/
def phoneAt (l : List Char) : Bool :=
  match phoneDigits 3 l with
  | none => false
  | some r1 =>
    match phoneDigits 3 (phoneSep r1) with
    | none => false
    | some r2 => (phoneDigits 4 (phoneSep r2)).isSome

/-- Python `re.search` for the phone pattern: a match starting at some
position. -/
def phoneSearch (l : List Char) : Bool := l.tails.any phoneAt

/-- ATSScorer._score_formatting. -/
def score_formatting (text : List Char) : ℚ × List String :=
  let breaking_chars_found := ATS_BREAKING_CHARS.filter (fun c => decide (c ∈ text))
  let hasBreaking := !breaking_chars_found.isEmpty
  let hasTable := decide ('|' ∈ text) || decide ('─' ∈ text)
  let hasHidden := decide (Char.ofNat 0x200b ∈ text) || decide (Char.ofNat 0xfeff ∈ text)
  let lines := splitOnChar ('\n') text
  let tooShort := decide (lines.length < 10)
  let tooLong := decide (100 < lines.length)
  let hasDoubleSpace := containsL text (("  ").data)
  let score : ℚ := 100 - (if hasBreaking then 10 else 0) - (if hasTable then 15 else 0)
    - (if hasHidden then 10 else 0) - (if tooShort then 5 else 0)
    - (if tooLong then 5 else 0) - (if hasDoubleSpace then 3 else 0)
  let feedback : List String :=
    (if hasBreaking then
      [("Remove special characters: ") ++
        String.intercalate (", ") (breaking_chars_found.map String.singleton)]
     else []) ++
    (if hasTable then
      [("Tables detected - ATS may not parse correctly. Use text format instead.")]
     else []) ++
    (if hasHidden then [("Hidden characters detected. Clean up encoding.")] else []) ++
    (if tooShort then [("Resume seems too short. Add more content.")] else []) ++
    (if tooLong then [("Resume seems too long. Consider condensing to 1-2 pages.")] else []) ++
    (if hasDoubleSpace then [("Remove extra spaces between words.")] else [])
  (pymax 0 score, feedback)

/-- ATSScorer._score_keywords.  The matched/missing loop is rendered as the
two complementary filters over the job-description keyword list, and the final
`list(set(...))` deduplication (whose order Python leaves unspecified) as
`List.dedup`. -/
def score_keywords (resume_text job_description : List Char) :
    ℚ × (List (List Char) × List (List Char)) :=
  let resume_lower := lower resume_text
  if job_description ≠ [] then
    let jd_lower := lower job_description
    let jd_keywords := extract_keywords jd_lower
    let resume_keywords := extract_keywords resume_lower
    let matched := jd_keywords.filter (fun k => decide (k ∈ resume_keywords))
    let missing := jd_keywords.filter (fun k => !(decide (k ∈ resume_keywords)))
    let match_rate : ℚ := (matched.length : ℚ) / ((max jd_keywords.length 1 : ℕ) : ℚ)
    let score : ℚ := match_rate * 100
    let score : ℚ :=
      if match_rate < (0.3 : ℚ) then score - 30
      else if match_rate < (0.5 : ℚ) then score - 15
      else if match_rate < (0.7 : ℚ) then score - 5
      else score
    (pymax 0 score, (matched.dedup, missing.dedup))
  else
    let found_keywords := TECHNICAL_KEYWORDS.filter (fun k => containsL resume_lower k)
    let score : ℚ := 100
    let score : ℚ :=
      if found_keywords.length = 0 then score - 30
      else if found_keywords.length < 3 then score - 15
      else score
    (pymax 0 score, (found_keywords.dedup, ([] : List (List Char)).dedup))

/-- Feedback string built by `_score_impact` for weak-verb overuse. -/
def weakVerbFeedback (n : Nat) : String :=
  ("Weak verbs detected (") ++ (toString n) ++ (" instances). Replace ") ++
  sq ++ ("worked") ++ sq ++ (", ") ++ sq ++ ("helped") ++ sq ++ (", ") ++
  sq ++ ("involved") ++ sq ++ (" with stronger verbs like ") ++
  sq ++ ("led") ++ sq ++ (", ") ++ sq ++ ("designed") ++ sq ++ (", ") ++
  sq ++ ("achieved") ++ sq ++ (".")

/-- ATSScorer._score_impact.  Lines shorter than 5 characters or fully
upper-case are skipped; each remaining line is classified strong / weak /
neither (in that priority order, matching the if/elif/else). -/
def score_impact (text : List Char) : ℚ × List String :=
  let lines := splitOnChar ('\n') text
  let counted := lines.filter (fun l => !(decide (l.length < 5) || pyIsUpper l))
  let hasStrong := fun (l : List Char) => STRONG_VERBS.any (fun v => containsL (lower l) v)
  let hasWeak := fun (l : List Char) => WEAK_VERBS.any (fun v => containsL (lower l) v)
  let strong_verb_count := (counted.filter (fun l => hasStrong l)).length
  let weak_verb_count := (counted.filter (fun l => !hasStrong l && hasWeak l)).length
  let no_verb_count := (counted.filter (fun l => !hasStrong l && !hasWeak l)).length
  let total_bullets := strong_verb_count + weak_verb_count + no_verb_count
  let strong_percent : ℚ := (strong_verb_count : ℚ) / (total_bullets : ℚ) * 100
  let weak_percent : ℚ := (weak_verb_count : ℚ) / (total_bullets : ℚ) * 100
  let score : ℚ :=
    if 0 < total_bullets then strong_percent * (0.5 : ℚ) + (100 - weak_percent) * (0.5 : ℚ)
    else 100
  let verbFeedback : List String :=
    if 0 < total_bullets ∧ 50 < weak_percent then [weakVerbFeedback weak_verb_count] else []
  let fewMetrics := metricsCount text < 3
  let score : ℚ := if fewMetrics then score - 20 else score
  let metricsFeedback : List String :=
    if fewMetrics then
      [("Add quantifiable metrics. Include numbers: percentages, dollars, scale, timeline.")]
    else []
  let passive_count :=
    countOcc (("was ").data) text + countOcc (("were ").data) text +
    countOcc (("been ").data) text + countOcc (("is ").data) text +
    countOcc (("are ").data) text
  let manyPassive := 5 < passive_count
  let score : ℚ := if manyPassive then score - 10 else score
  let passiveFeedback : List String :=
    if manyPassive then
      [("Reduce passive voice. Prefer active voice (e.g., ") ++ sq ++ ("Led") ++ sq ++
        (" vs ") ++ sq ++ ("Was responsible for") ++ sq ++ (").")]
    else []
  (pymax 0 score, verbFeedback ++ metricsFeedback ++ passiveFeedback)

/-- ATSScorer._score_content.  `sections_found` membership is flattened to one
Boolean per canonical section. -/
def score_content (text : List Char) : ℚ × List String :=
  let text_lower := lower text
  let expFound := containsL text_lower (("experience").data) ||
    containsL text_lower (("employment").data)
  let eduFound := containsL text_lower (("education").data) ||
    containsL text_lower (("degree").data)
  let sklFound := containsL text_lower (("skills").data) ||
    containsL text_lower (("technical").data)
  let hasSummary := containsL text_lower (("summary").data) ||
    containsL text_lower (("objective").data) || containsL text_lower (("profile").data)
  let hasEmail := containsL text (("@").data)
  let hasPhone := phoneSearch text
  let score : ℚ := 100 - (if expFound then 0 else 20) - (if eduFound then 0 else 20)
    - (if sklFound then 0 else 20) + (if hasSummary then 5 else 0)
    - (if hasEmail then 0 else 10)
  let feedback : List String :=
    (if expFound then []
     else [("Missing ") ++ sq ++ ("experience") ++ sq ++
       (" section. Add it to improve completeness.")]) ++
    (if eduFound then []
     else [("Missing ") ++ sq ++ ("education") ++ sq ++
       (" section. Add it to improve completeness.")]) ++
    (if sklFound then []
     else [("Missing ") ++ sq ++ ("skills") ++ sq ++
       (" section. Add it to improve completeness.")]) ++
    (if hasSummary then []
     else [("Consider adding a professional summary (2-3 sentences).")]) ++
    (if hasEmail then [] else [("Missing email address. Add your contact information.")]) ++
    (if hasPhone then [] else [("Consider adding phone number for completeness.")])
  (pymax 0 score, feedback)

/-- ATSScorer._score_structure. -/
def score_structure (text : List Char) : ℚ × List String :=
  let lines := splitOnChar ('\n') text
  let headings := lines.filter (fun l => pyIsUpper l && decide (l.length < 30))
  let fewHeadings := headings.length < 3
  let long_lines := lines.filter (fun l => decide (100 < l.length))
  let manyLong := (lines.length : ℚ) * (0.3 : ℚ) < (long_lines.length : ℚ)
  let bullet_count := countOcc (("•").data) text + countOcc (("-").data) text +
    countOcc (("*").data) text
  let noBullets := bullet_count = 0
  let word_count := (splitWs text).length
  let tooShort := word_count < 200
  let tooLong := 1500 < word_count
  let score : ℚ := 100 - (if fewHeadings then 15 else 0) - (if manyLong then 10 else 0)
    - (if noBullets then 20 else 0)
    - (if tooShort then 10 else if tooLong then 10 else 0)
  let feedback : List String :=
    (if fewHeadings then
      [("Use clear section headings in CAPS (e.g., EXPERIENCE, EDUCATION, SKILLS).")]
     else []) ++
    (if manyLong then
      [("Some lines are very long. Break them into smaller chunks for readability.")]
     else []) ++
    (if noBullets then
      [("Use bullet points (•) to structure information. Improves readability and ATS parsing.")]
     else []) ++
    (if tooShort then [("Resume seems short. Add more relevant content.")]
     else if tooLong then [("Resume seems long. Aim for 1-2 pages (200-1000 words).")]
     else [])
  (pymax 0 score, feedback)

/-- Severity bucket assigned by `_categorize_issues`. -/
inductive Bucket where
  | critical
  | warning
  | improvement
deriving DecidableEq

/-- Substrings whose presence makes a feedback string critical. -/
def criticalMarkers : List String := ["missing", "remove", "avoid", "breaks"]

/-- Substrings whose presence (absent a critical marker) makes a feedback
string an improvement. -/
def improvementMarkers : List String := ["consider", "try", "reduce"]

/-- Bucket of one item in `_categorize_issues`: the critical test runs first,
then the improvement test, else warning. -/
def classify (item : String) : Bucket :=
  let il := lower item.data
  if criticalMarkers.any (fun w => containsL il w.data) then Bucket.critical
  else if improvementMarkers.any (fun w => containsL il w.data) then Bucket.improvement
  else Bucket.warning

/-- One loop iteration of `_categorize_issues`: append the item to the list
chosen by its bucket. -/
def categorizeItem (acc : List String × List String × List String) (item : String) :
    List String × List String × List String :=
  match classify item with
  | Bucket.critical => (acc.1 ++ [item], acc.2.1, acc.2.2)
  | Bucket.warning => (acc.1, acc.2.1 ++ [item], acc.2.2)
  | Bucket.improvement => (acc.1, acc.2.1, acc.2.2 ++ [item])

/-- ATSScorer._categorize_issues over the iterable collections it is handed
(`if not feedback_list: continue` skips empty ones). -/
def categorize_issues (feedback_lists : List (List String)) :
    List String × List String × List String :=
  feedback_lists.foldl (fun acc fl => if fl = [] then acc else fl.foldl categorizeItem acc)
    ([], [], [])

/-- Result dictionary of `ATSScorer.score_resume`, flattened: the `breakdown`
entries appear as `<dimension>_score` / `<dimension>_feedback` fields, the
keywords entry carries `matched` / `missing` instead of feedback. -/
structure Report where
  overall_score : ℚ
  formatting_score : ℚ
  formatting_feedback : List String
  keywords_score : ℚ
  keywords_matched : List (List Char)
  keywords_missing : List (List Char)
  impact_score : ℚ
  impact_feedback : List String
  content_score : ℚ
  content_feedback : List String
  structure_score : ℚ
  structure_feedback : List String
  critical_issues : List String
  warnings : List String
  improvements : List String

/-- ATSScorer.score_resume.  `_categorize_issues` is passed
`keywords_data`, a Python dict `{"matched": ..., "missing": ...}`; iterating a
dict yields its keys in insertion order, so that argument contributes the two
strings `"matched"` and `"missing"`. -/
def score_resume (resume_text job_description : List Char) : Report :=
  let formatting := score_formatting resume_text
  let keywords := score_keywords resume_text job_description
  let impact := score_impact resume_text
  let content := score_content resume_text
  let structureR := score_structure resume_text
  let overall_score : ℚ := formatting.1 * (0.20 : ℚ) + keywords.1 * (0.30 : ℚ) +
    impact.1 * (0.20 : ℚ) + content.1 * (0.20 : ℚ) + structureR.1 * (0.10 : ℚ)
  let categorized := categorize_issues
    [formatting.2, ["matched", "missing"], impact.2, content.2, structureR.2]
  { overall_score := pyRound1 overall_score
    formatting_score := formatting.1
    formatting_feedback := formatting.2
    keywords_score := keywords.1
    keywords_matched := keywords.2.1
    keywords_missing := keywords.2.2
    impact_score := impact.1
    impact_feedback := impact.2
    content_score := content.1
    content_feedback := content.2
    structure_score := structureR.1
    structure_feedback := structureR.2
    critical_issues := categorized.1
    warnings := categorized.2.1
    improvements := categorized.2.2 }

/-- JS `String.prototype.trim`. -/
def trimL (l : List Char) : List Char :=
  ((l.dropWhile (fun c => c.isWhitespace)).reverse.dropWhile (fun c => c.isWhitespace)).reverse

/-- scoreFromText of netlify/functions/score-file.js.  The second bullet
prefix is the literal three-character sequence that appears in the source
(mojibake of a bullet point). -/
def scoreFromText (text : List Char) : Nat × List String :=
  let normalized := lower text
  let lenOk := decide (800 ≤ text.length)
  let skillsOk := containsL normalized (("skills").data)
  let expOk := (["experience", "work history", "employment"]).any
    (fun k => containsL normalized k.data)
  let eduOk := (["education", "degree", "university", "college"]).any
    (fun k => containsL normalized k.data)
  let bulletLines := ((splitOnChar ('\n') text).map trimL).filter
    (fun l => startsWithL l (("-").data) || startsWithL l (("â€¢").data))
  let bulletsOk := decide (5 ≤ bulletLines.length)
  let emailOk := containsL normalized (("@").data)
  let score := 50 + (if lenOk then 10 else 0) + (if skillsOk then 8 else 0) +
    (if expOk then 12 else 0) + (if eduOk then 6 else 0) +
    (if bulletsOk then 10 else 0) + (if emailOk then 5 else 0)
  let feedback : List String :=
    (if lenOk then [] else [("Add more detail (aim for 350-500 words).")]) ++
    (if skillsOk then [] else [("Include a dedicated skills section.")]) ++
    (if expOk then [] else [("Add an experience section with impact-focused bullets.")]) ++
    (if eduOk then [] else [("Add education details.")]) ++
    (if bulletsOk then [] else [("Use more bullet points to highlight achievements.")]) ++
    (if emailOk then [] else [("Add an email address for contact info.")])
  let score := min score 100
  let feedback :=
    if feedback = [] then
      [("Resume looks solid. Customize it for the target role and keywords.")]
    else feedback
  (score, feedback)

/-- Errors thrown by `extractTextFromUpload`: the explicit
`new Error("Unsupported file type.")`, or an error propagated from the
extraction library (pdf-parse / mammoth rejecting). -/
inductive ExtractError where
  | unsupported (msg : String)
  | libraryFailure
deriving DecidableEq

/-- Behaviour of the two extraction libraries and of `Buffer.toString`,
supplied as an environment: `none` models the library throwing / rejecting,
`some t` a resolved result whose text field is `t` (`none` inside models a
falsy `data.text` / `result.value`). -/
structure ExtractEnv where
  decodeUtf8 : List Nat → String
  pdfParse : List Nat → Option (Option String)
  mammoth : List Nat → Option (Option String)

/-- Extension computation of `extractTextFromUpload`:
`filename.includes(".") ? filename.split(".").pop().toLowerCase() : ""`. -/
def getExtension (filename : List Char) : List Char :=
  if containsL filename ((".").data) then
    lower ((splitOnChar ('.') filename).getLast?.getD [])
  else []

/-- extractTextFromUpload of netlify/functions/score-file.js.
`data.text || ""` / `result.value || ""` becomes `t.getD ""`. -/
def extractTextFromUpload (env : ExtractEnv) (filename : List Char) (content : List Nat) :
    Except ExtractError String :=
  let extension := getExtension filename
  if extension = ("txt").data ∨ extension = ("md").data then
    Except.ok (env.decodeUtf8 content)
  else if extension = ("pdf").data then
    match env.pdfParse content with
    | none => Except.error ExtractError.libraryFailure
    | some t => Except.ok (t.getD "")
  else if extension = ("docx").data then
    match env.mammoth content with
    | none => Except.error ExtractError.libraryFailure
    | some t => Except.ok (t.getD "")
  else Except.error (ExtractError.unsupported ("Unsupported file type."))

/-- Keyword list the job-description branch of `_score_keywords` extracts from
the job description. -/
def jdKeywordsOf (job_description : List Char) : List (List Char) :=
  extract_keywords (lower job_description)

/-- Match rate of the job-description branch:
`matched / max(len(jd_keywords), 1)`. -/
def matchRate (resume_text job_description : List Char) : ℚ :=
  (((jdKeywordsOf job_description).filter
      (fun k => decide (k ∈ extract_keywords (lower resume_text)))).length : ℚ) /
    ((max (jdKeywordsOf job_description).length 1 : ℕ) : ℚ)

/-- The harshest applicable penalty tier, stated as a maximum over the three
tiers so that "tiers never stack" and "the harshest applicable tier wins" are
part of the statement rather than of an if/elif chain. -/
def harshestPenalty (r : ℚ) : ℚ :=
  pymax (if r < (0.3 : ℚ) then (30 : ℚ) else 0)
    (pymax (if r < (0.5 : ℚ) then (15 : ℚ) else 0) (if r < (0.7 : ℚ) then (5 : ℚ) else 0))

/-- Fixed environment: both extraction libraries reject every payload. -/
def env0 : ExtractEnv where
  decodeUtf8 := fun _ => ""
  pdfParse := fun _ => none
  mammoth := fun _ => none

/-- Fixed environment: both extraction libraries resolve with a falsy text
field on every payload (a parse that succeeds but yields no text). -/
def env1 : ExtractEnv where
  decodeUtf8 := fun _ => ""
  pdfParse := fun _ => some none
  mammoth := fun _ => some none

theorem lower_append (a b : List Char) : lower (a ++ b) = lower a ++ lower b := by
  simp [lower]

theorem containsL_append_left {l pat : List Char} (l' : List Char)
    (h : containsL l pat = true) : containsL (l ++ l') pat = true := by
  simp only [containsL, decide_eq_true_eq] at h ⊢
  exact h.trans ⟨[], l', by simp⟩

theorem containsL_append_right {l' pat : List Char} (l : List Char)
    (h : containsL l' pat = true) : containsL (l ++ l') pat = true := by
  simp only [containsL, decide_eq_true_eq] at h ⊢
  exact h.trans ⟨l, [], by simp⟩

theorem pymax_le_pymax {x y : ℚ} (h : x ≤ y) : pymax 0 x ≤ pymax 0 y := by
  unfold pymax; split_ifs <;> linarith

theorem ite_pen_le (b b' : Bool) (x : ℚ) (hx : 0 ≤ x) (h : b = true → b' = true) :
    (if b' then (0 : ℚ) else x) ≤ if b then 0 else x := by
  cases b <;> cases b' <;> simp_all

theorem ite_bonus_le (b b' : Bool) (x : ℚ) (hx : 0 ≤ x) (h : b = true → b' = true) :
    (if b then x else 0) ≤ if b' then x else 0 := by
  cases b <;> cases b' <;> simp_all

theorem tier_eq (r : ℚ) :
    (if r < (0.3 : ℚ) then r * 100 - 30
     else if r < (0.5 : ℚ) then r * 100 - 15
     else if r < (0.7 : ℚ) then r * 100 - 5
     else r * 100) = r * 100 - harshestPenalty r := by
  unfold harshestPenalty pymax
  split_ifs <;> linarith

/-- Claim C1 (status: code_bug evidence).  The spec and the docstring of
`score_resume` require every dimension score in [0, 100], but `_score_content`
only floors at 0: a resume containing all three section markers, a summary
marker and an email address collects the +5 summary bonus on top of an
untouched 100 and the returned Content score is 105. -/
theorem content_score_exceeds_100_on_complete_resume :
    (score_resume (("experience education skills summary @").data) []).content_score = 105 ∧
    (100 : ℚ) < (score_resume (("experience education skills summary @").data) []).content_score := by
  constructor <;>
  · simp only [score_resume]
    simp +decide only [score_content, pymax]
    norm_num

/-- Claim C3 (status: confirmed).  The overall score is exactly the weighted
sum 0.20·formatting + 0.30·keywords + 0.20·impact + 0.20·content +
0.10·structure of the five breakdown scores, rounded to one decimal place. -/
theorem overall_is_weighted_sum_of_breakdown (t jd : List Char) :
    (score_resume t jd).overall_score =
      pyRound1 ((0.20 : ℚ) * (score_resume t jd).formatting_score +
        (0.30 : ℚ) * (score_resume t jd).keywords_score +
        (0.20 : ℚ) * (score_resume t jd).impact_score +
        (0.20 : ℚ) * (score_resume t jd).content_score +
        (0.10 : ℚ) * (score_resume t jd).structure_score) := by
  simp only [score_resume]
  congr 1
  ring

/-- Claim C10 (status: confirmed).  The deployed file-upload scorer starts at
50, only ever adds bonuses, is capped at 100, and never goes below 50; its
feedback list is never empty (a default message is supplied when no issue
fires). -/
theorem scoreFromText_bounds_and_feedback (text : List Char) :
    50 ≤ (scoreFromText text).1 ∧ (scoreFromText text).1 ≤ 100 ∧
      (scoreFromText text).2 ≠ [] := by
  simp only [scoreFromText]
  split_ifs <;> refine ⟨by omega, by omega, by simp_all⟩

/-- Claim C5 (status: confirmed).  A feedback string is classified critical
exactly when its lowercased form contains one of "missing" / "remove" /
"avoid" / "breaks"; otherwise improvement exactly when it contains one of
"consider" / "try" / "reduce"; otherwise warning.  The critical test runs
first, so a string containing markers of both kinds is critical, and since
`classify` is a function of the string alone, identical strings always land in
the same bucket. -/
theorem classifier_characterization (s : String) :
    (classify s = Bucket.critical ↔
      criticalMarkers.any (fun w => containsL (lower s.data) w.data) = true) ∧
    (classify s = Bucket.improvement ↔
      (criticalMarkers.any (fun w => containsL (lower s.data) w.data) = false ∧
        improvementMarkers.any (fun w => containsL (lower s.data) w.data) = true)) ∧
    (classify s = Bucket.warning ↔
      (criticalMarkers.any (fun w => containsL (lower s.data) w.data) = false ∧
        improvementMarkers.any (fun w => containsL (lower s.data) w.data) = false)) := by
  unfold classify
  cases h1 : criticalMarkers.any (fun w => containsL (lower s.data) w.data) <;>
    cases h2 : improvementMarkers.any (fun w => containsL (lower s.data) w.data) <;>
      simp [h1, h2]

/-- Claim C2 (status: confirmed).  In job-description mode the Keywords score
is `matched / max(len(jd_keywords), 1) * 100` minus the harshest applicable
penalty tier (30 below ratio 0.3, else 15 below 0.5, else 5 below 0.7, else
nothing — `harshestPenalty` states this as a maximum, so the tiers provably
never stack), floored at 0. -/
theorem keywords_jd_tiered_penalty (resume_text job_description : List Char)
    (h : job_description ≠ []) :
    (score_keywords resume_text job_description).1 =
      pymax 0 (matchRate resume_text job_description * 100 -
        harshestPenalty (matchRate resume_text job_description)) := by
  unfold score_keywords
  rw [if_pos h]
  dsimp only
  rw [tier_eq]
  unfold matchRate jdKeywordsOf
  rfl

/-- Witness for C2 at a concrete input: the job description "x" is non-empty
(it extracts no keywords, so the match rate is 0 and the harshest tier, 30,
fires, floored to a score of 0). -/
theorem keywords_jd_tiered_penalty_witness :
    (("x").data ≠ ([] : List Char)) ∧
      (score_keywords [] (("x").data)).1 =
        pymax 0 (matchRate [] (("x").data) * 100 -
          harshestPenalty (matchRate [] (("x").data))) :=
  ⟨by decide, keywords_jd_tiered_penalty [] (("x").data) (by decide)⟩

/-- Claim C6 (status: corrected), counterexample.  Extracting "resume.xyz"
does fail with the unsupported-format error, but its message is the fixed
string "Unsupported file type.", which does not contain the rejected
extension "xyz". -/
theorem unsupported_error_does_not_name_extension :
    extractTextFromUpload env0 (("resume.xyz").data) [] =
        Except.error (ExtractError.unsupported ("Unsupported file type.")) ∧
      containsL (("Unsupported file type.").data) (("xyz").data) = false := by
  constructor
  · rfl
  · decide

/-- Claim C6 (status: corrected), amended claim.  For every filename whose
extension is not txt/md/pdf/docx and every payload, extraction fails with the
unsupported-format error carrying the fixed message "Unsupported file type."
(which never names the rejected extension). -/
theorem unsupported_extension_fixed_message (env : ExtractEnv) (filename : List Char)
    (content : List Nat)
    (h : getExtension filename ∉ [("txt").data, ("md").data, ("pdf").data, ("docx").data]) :
    extractTextFromUpload env filename content =
      Except.error (ExtractError.unsupported ("Unsupported file type.")) := by
  have h1 : getExtension filename ≠ ("txt").data :=
    fun e => h (by rw [e]; exact List.mem_cons_self _ _)
  have h2 : getExtension filename ≠ ("md").data := fun e => h (by rw [e]; simp)
  have h3 : getExtension filename ≠ ("pdf").data := fun e => h (by rw [e]; simp)
  have h4 : getExtension filename ≠ ("docx").data := fun e => h (by rw [e]; simp)
  unfold extractTextFromUpload
  rw [if_neg (not_or.mpr ⟨h1, h2⟩), if_neg h3, if_neg h4]

/-- Witness for the amended C6 at the concrete filename "resume.xyz". -/
theorem unsupported_extension_fixed_message_witness :
    (getExtension (("resume.xyz").data) ∉
        [("txt").data, ("md").data, ("pdf").data, ("docx").data]) ∧
      extractTextFromUpload env0 (("resume.xyz").data) [] =
        Except.error (ExtractError.unsupported ("Unsupported file type.")) :=
  ⟨by decide, unsupported_extension_fixed_message env0 (("resume.xyz").data) [] (by decide)⟩

/-- Claim C7 (status: corrected), counterexample.  A PDF upload whose parse
succeeds but yields no text (`data.text` falsy) is returned as a successful
extraction of the empty string, not as an extraction failure. -/
theorem empty_pdf_text_returned_as_success :
    extractTextFromUpload env1 (("resume.pdf").data) [] = Except.ok "" := by
  rfl

/-- Claim C7 (status: corrected), amended claim.  For every filename whose
extension is pdf or docx and every payload: when the format-specific
extraction library (pdf-parse for PDF, mammoth for DOCX) throws, the
operation fails with an extraction-failure error; but a parse that succeeds
while yielding no text (`data.text || ""` for PDF, `result.value || ""` for
DOCX) is returned as a successful extraction of the empty string. -/
theorem extraction_throw_fails_but_empty_text_succeeds (env : ExtractEnv)
    (filename : List Char) (content : List Nat) :
    (getExtension filename = ("pdf").data →
      (env.pdfParse content = none →
        extractTextFromUpload env filename content =
          Except.error ExtractError.libraryFailure) ∧
      (env.pdfParse content = some none →
        extractTextFromUpload env filename content = Except.ok "")) ∧
    (getExtension filename = ("docx").data →
      (env.mammoth content = none →
        extractTextFromUpload env filename content =
          Except.error ExtractError.libraryFailure) ∧
      (env.mammoth content = some none →
        extractTextFromUpload env filename content = Except.ok "")) := by
  refine ⟨fun h => ?_, fun h => ?_⟩
  · unfold extractTextFromUpload
    dsimp only
    rw [h, if_neg (by decide), if_pos rfl]
    constructor <;> intro hp <;> simp [hp]
  · unfold extractTextFromUpload
    dsimp only
    rw [h, if_neg (by decide), if_neg (by decide), if_pos rfl]
    constructor <;> intro hp <;> simp [hp]

/-- Witness for the amended C7 at the concrete filenames "resume.pdf" and
"resume.docx": under `env0` both libraries throw and extraction fails with
the library-failure error; under `env1` both libraries resolve with a falsy
text field and extraction succeeds with the empty string. -/
theorem extraction_throw_fails_but_empty_text_succeeds_witness :
    (getExtension (("resume.pdf").data) = ("pdf").data) ∧
      env0.pdfParse [] = none ∧
      extractTextFromUpload env0 (("resume.pdf").data) [] =
        Except.error ExtractError.libraryFailure ∧
      env1.pdfParse [] = some none ∧
      extractTextFromUpload env1 (("resume.pdf").data) [] = Except.ok "" ∧
      (getExtension (("resume.docx").data) = ("docx").data) ∧
      env0.mammoth [] = none ∧
      extractTextFromUpload env0 (("resume.docx").data) [] =
        Except.error ExtractError.libraryFailure ∧
      env1.mammoth [] = some none ∧
      extractTextFromUpload env1 (("resume.docx").data) [] = Except.ok "" :=
  ⟨by decide, rfl,
    ((extraction_throw_fails_but_empty_text_succeeds env0 (("resume.pdf").data) []).1
      (by decide)).1 rfl,
    rfl,
    ((extraction_throw_fails_but_empty_text_succeeds env1 (("resume.pdf").data) []).1
      (by decide)).2 rfl,
    by decide, rfl,
    ((extraction_throw_fails_but_empty_text_succeeds env0 (("resume.docx").data) []).2
      (by decide)).1 rfl,
    rfl,
    ((extraction_throw_fails_but_empty_text_succeeds env1 (("resume.docx").data) []).2
      (by decide)).2 rfl⟩

theorem foldl_categorizeItem_eq (l : List String) :
    ∀ acc : List String × List String × List String,
    l.foldl categorizeItem acc =
      (acc.1 ++ l.filter (fun s => decide (classify s = Bucket.critical)),
       acc.2.1 ++ l.filter (fun s => decide (classify s = Bucket.warning)),
       acc.2.2 ++ l.filter (fun s => decide (classify s = Bucket.improvement))) := by
  induction l with
  | nil => intro acc; simp
  | cons x xs ih =>
    intro acc
    rw [List.foldl_cons, ih]
    cases hc : classify x <;>
      simp [categorizeItem, hc, List.filter_cons, List.append_assoc]

theorem categorize_aux (fls : List (List String)) :
    ∀ acc : List String × List String × List String,
    fls.foldl (fun acc fl => if fl = [] then acc else fl.foldl categorizeItem acc) acc =
      (acc.1 ++ fls.flatten.filter (fun s => decide (classify s = Bucket.critical)),
       acc.2.1 ++ fls.flatten.filter (fun s => decide (classify s = Bucket.warning)),
       acc.2.2 ++ fls.flatten.filter (fun s => decide (classify s = Bucket.improvement))) := by
  induction fls with
  | nil => intro acc; simp
  | cons fl rest ih =>
    intro acc
    rw [List.foldl_cons]
    by_cases hfl : fl = []
    · rw [if_pos hfl, ih, hfl]; simp
    · rw [if_neg hfl, foldl_categorizeItem_eq, ih]
      simp [List.filter_append, List.append_assoc]

theorem categorize_issues_eq (fls : List (List String)) :
    categorize_issues fls =
      (fls.flatten.filter (fun s => decide (classify s = Bucket.critical)),
       fls.flatten.filter (fun s => decide (classify s = Bucket.warning)),
       fls.flatten.filter (fun s => decide (classify s = Bucket.improvement))) := by
  unfold categorize_issues
  rw [categorize_aux]
  simp

/-- Claim C4 (status: confirmed).  Every feedback string appearing in any
DimensionResult of the report (the keywords dimension carries no feedback
field, so its contribution is empty) appears in exactly one of the three
classified lists critical_issues / warnings / improvements. -/
theorem feedback_string_in_exactly_one_bucket (t jd : List Char) (s : String)
    (h : s ∈ (score_resume t jd).formatting_feedback ∨
      s ∈ (score_resume t jd).impact_feedback ∨
      s ∈ (score_resume t jd).content_feedback ∨
      s ∈ (score_resume t jd).structure_feedback) :
    (s ∈ (score_resume t jd).critical_issues ∧ s ∉ (score_resume t jd).warnings ∧
        s ∉ (score_resume t jd).improvements) ∨
      (s ∉ (score_resume t jd).critical_issues ∧ s ∈ (score_resume t jd).warnings ∧
        s ∉ (score_resume t jd).improvements) ∨
      (s ∉ (score_resume t jd).critical_issues ∧ s ∉ (score_resume t jd).warnings ∧
        s ∈ (score_resume t jd).improvements) := by
  simp only [score_resume] at h ⊢
  simp only [categorize_issues_eq]
  have hj : s ∈ ([(score_formatting t).2, [("matched"), ("missing")], (score_impact t).2,
      (score_content t).2, (score_structure t).2] : List (List String)).flatten := by
    simp only [List.flatten_cons, List.flatten_nil, List.append_nil, List.mem_append]
    tauto
  cases hcl : classify s
  · refine Or.inl ⟨List.mem_filter.mpr ⟨hj, by simp [hcl]⟩, ?_, ?_⟩ <;>
      · intro hw
        have hb := (List.mem_filter.mp hw).2
        simp [hcl] at hb
  · refine Or.inr (Or.inl ⟨?_, List.mem_filter.mpr ⟨hj, by simp [hcl]⟩, ?_⟩) <;>
      · intro hw
        have hb := (List.mem_filter.mp hw).2
        simp [hcl] at hb
  · refine Or.inr (Or.inr ⟨?_, ?_, List.mem_filter.mpr ⟨hj, by simp [hcl]⟩⟩) <;>
      · intro hw
        have hb := (List.mem_filter.mp hw).2
        simp [hcl] at hb

/-- Witness for C4: on the empty resume, the Content scorer emits the missing
email feedback, and it lands in critical_issues and in neither other list. -/
theorem feedback_string_in_exactly_one_bucket_witness :
    (("Missing email address. Add your contact information.") ∈
        (score_resume [] []).content_feedback) ∧
      ((("Missing email address. Add your contact information.") ∈
          (score_resume [] []).critical_issues ∧
        ("Missing email address. Add your contact information.") ∉
          (score_resume [] []).warnings ∧
        ("Missing email address. Add your contact information.") ∉
          (score_resume [] []).improvements) ∨
      (("Missing email address. Add your contact information.") ∉
          (score_resume [] []).critical_issues ∧
        ("Missing email address. Add your contact information.") ∈
          (score_resume [] []).warnings ∧
        ("Missing email address. Add your contact information.") ∉
          (score_resume [] []).improvements) ∨
      (("Missing email address. Add your contact information.") ∉
          (score_resume [] []).critical_issues ∧
        ("Missing email address. Add your contact information.") ∉
          (score_resume [] []).warnings ∧
        ("Missing email address. Add your contact information.") ∈
          (score_resume [] []).improvements)) :=
  ⟨by decide,
    feedback_string_in_exactly_one_bucket [] []
      (("Missing email address. Add your contact information."))
      (Or.inr (Or.inr (Or.inl (by decide))))⟩

/-- Claim C9 (status: confirmed).  Because `score_resume` hands the keywords
result dictionary to `_categorize_issues`, which iterates it as its keys, the
literal strings "missing" (classified critical) and "matched" (classified
warning) appear in the issue lists of every report. -/
theorem dict_keys_leak_into_issue_lists (t jd : List Char) :
    ("missing") ∈ (score_resume t jd).critical_issues ∧
      ("matched") ∈ (score_resume t jd).warnings := by
  simp only [score_resume]
  simp only [categorize_issues_eq]
  constructor <;>
    · refine List.mem_filter.mpr ⟨?_, by decide⟩
      simp only [List.flatten_cons, List.flatten_nil, List.append_nil, List.mem_append]
      exact Or.inr (Or.inl (by decide))

theorem content_core_mono (a a' b b' c c' s s' e e' : Bool)
    (ha : a = true → a' = true) (hb : b = true → b' = true) (hc : c = true → c' = true)
    (hs : s = true → s' = true) (he : e = true → e' = true) :
    pymax 0 (100 - (if a then (0 : ℚ) else 20) - (if b then 0 else 20)
        - (if c then 0 else 20) + (if s then 5 else 0) - (if e then 0 else 10)) ≤
      pymax 0 (100 - (if a' then (0 : ℚ) else 20) - (if b' then 0 else 20)
        - (if c' then 0 else 20) + (if s' then 5 else 0) - (if e' then 0 else 10)) := by
  apply pymax_le_pymax
  have h1 := ite_pen_le a a' 20 (by norm_num) ha
  have h2 := ite_pen_le b b' 20 (by norm_num) hb
  have h3 := ite_pen_le c c' 20 (by norm_num) hc
  have h4 := ite_bonus_le s s' 5 (by norm_num) hs
  have h5 := ite_pen_le e e' 10 (by norm_num) he
  linarith

/-- Claim C8 (status: confirmed).  Appending a valid email address (a string
containing the at sign) to a text that lacks one never decreases the Content
score: every Content check rewards presence of a substring and appending text
never destroys substring occurrences, while the email penalty flips from -10
to 0. -/
theorem content_email_monotone (text email : List Char)
    (h1 : containsL text (("@").data) = false)
    (h2 : containsL email (("@").data) = true) :
    (score_content text).1 ≤ (score_content (text ++ email)).1 := by
  have hmono : ∀ pat : List Char, containsL (lower text) pat = true →
      containsL (lower (text ++ email)) pat = true := by
    intro pat hp
    rw [lower_append]
    exact containsL_append_left _ hp
  have hor : ∀ p q : List Char,
      (containsL (lower text) p || containsL (lower text) q) = true →
      (containsL (lower (text ++ email)) p || containsL (lower (text ++ email)) q) = true := by
    intro p q hpq
    have hpq2 : containsL (lower text) p = true ∨ containsL (lower text) q = true := by
      simpa using hpq
    rcases hpq2 with hh | hh <;> simp [hmono _ hh]
  have hor3 : ∀ p q r : List Char,
      (containsL (lower text) p || containsL (lower text) q ||
        containsL (lower text) r) = true →
      (containsL (lower (text ++ email)) p || containsL (lower (text ++ email)) q ||
        containsL (lower (text ++ email)) r) = true := by
    intro p q r hpqr
    have hpqr2 : containsL (lower text) p = true ∨ containsL (lower text) q = true ∨
        containsL (lower text) r = true := by
      simpa [or_assoc] using hpqr
    rcases hpqr2 with hh | hh | hh <;> simp [hmono _ hh]
  have hemail : ∀ hcur : containsL text (("@").data) = true,
      containsL (text ++ email) (("@").data) = true :=
    fun _ => containsL_append_right text h2
  simp only [score_content]
  exact content_core_mono _ _ _ _ _ _ _ _ _ _
    (hor (("experience").data) (("employment").data))
    (hor (("education").data) (("degree").data))
    (hor (("skills").data) (("technical").data))
    (hor3 (("summary").data) (("objective").data) (("profile").data))
    hemail

/-- Witness for C8 at a concrete input: "abc" has no at sign, "a@b.com"
contains one, and the Content score does not decrease when the address is
appended. -/
theorem content_email_monotone_witness :
    (containsL (("abc").data) (("@").data) = false) ∧
      (containsL (("a@b.com").data) (("@").data) = true) ∧
      (score_content (("abc").data)).1 ≤
        (score_content ((("abc").data) ++ (("a@b.com").data))).1 :=
  ⟨by decide, by decide, content_email_monotone (("abc").data) (("a@b.com").data)
    (by decide) (by decide)⟩

end ATS
